import Mathlib

/-
  Shallow embedding of src/Firmware/_daq_core/rtl_daq.c, the coherent
  multichannel RTL-SDR acquisition core of the HeIMDALL DAQ firmware.

  The concurrent program (per-channel async reader callbacks, a control
  FIFO thread and the coordinator main loop, all serialised on one mutex
  and condition variable) is embedded as a sequential transition system:
  each mutex-protected region of the C code becomes one atomic step
  function on an explicit state record.

  Machine integers are modelled as Nat or Int with explicit reductions
  modulo 2 ^ w where the C code truncates (uint32_t casts, the uint8_t
  overdrive flag byte).  stdout is modelled by the Frame values a step
  emits.  Driver calls that can fail (rtlsdr_set_center_freq,
  rtlsdr_set_tuner_gain, rtlsdr_cancel_async, ...) are given their
  success or failure and their read-back values by a DriverOracle.
-/

/-- NUM_BUFF from rtl_daq.c line 50: number of slots of the circular
per-channel acquisition buffer. -/
def NUM_BUFF : Nat := 8

/-- NO_DUMMY_FRAMES from rtl_daq.c line 62: length of the dummy-frame
window that follows every control command. -/
def NO_DUMMY_FRAMES : Nat := 8

/-- Modelled from the spec: iq_header.h is not under src/, so the exact
numeric values of the frame-type constants are unknown; the spec only
requires DATA, DUMMY and CAL to be distinct constants.  Chosen value for
the DATA frame type. -/
def FRAME_TYPE_DATA : Nat := 0

/-- Modelled from the spec: distinct constant for the DUMMY frame type
(see FRAME_TYPE_DATA). -/
def FRAME_TYPE_DUMMY : Nat := 1

/-- Modelled from the spec: distinct constant for the CAL frame type
(see FRAME_TYPE_DATA). -/
def FRAME_TYPE_CAL : Nat := 3

/-- The C cast (uint32_t) g of a signed int g: reduction into
[0, 2 ^ 32), matching two's-complement truncation. -/
def uint32ofInt (g : Int) : Nat := (g % (2 ^ 32 : Int)).toNat

/-- One receiver record (struct rtl_rec_struct; the header declaring it
is not under src/, so the fields are taken from their uses in
rtl_daq.c: gain is an int, center_freq and sample_rate are uint32
values, buff_ind is the unsigned long long write counter, buffer is the
NUM_BUFF-slot ring of bytes).  applied_gain is a ghost history field,
not present in the C struct: it records the argument of the most recent
successful rtlsdr_set_tuner_gain call for this receiver, which is what
spec property P8 speaks about. -/
structure RtlRec where
  gain : Int
  center_freq : Nat
  sample_rate : Nat
  buff_ind : Nat
  buffer : List Nat
  applied_gain : Option Int
deriving Repr, DecidableEq, Inhabited

/-- The configuration values rtl_daq.c reads from daq_chain_config.ini
together with the derived ctr_channel_dev_index (line 438). -/
structure Config where
  ch_no : Nat
  daq_buffer_size : Nat
  en_noise_source_ctr : Nat
  ctr_channel_dev_index : Nat
  gain : Int
  center_freq : Nat
  sample_rate : Nat
deriving Repr, DecidableEq, Inhabited

/-- buffer_size = config.daq_buffer_size * 2 (rtl_daq.c line 404):
number of octets (I and Q bytes) per channel per block. -/
def Config.buffer_size (c : Config) : Nat := c.daq_buffer_size * 2

/-- The payload words the control FIFO thread would fread after a
command byte (rtl_daq.c lines 207-209, 226, 235). -/
structure FifoPayload where
  center_freq_read : Nat
  sample_rate_read : Nat
  gain_read : Int
  gains_read : List Int
deriving Repr, DecidableEq, Inhabited

/-- Outcome oracle for the fallible rtlsdr driver calls: per channel
index, whether each call succeeds, and the value
rtlsdr_get_center_freq reads back. -/
structure DriverOracle where
  cancel_ok : Nat → Bool
  set_freq_ok : Nat → Bool
  get_center_freq : Nat → Nat
  set_gain_ok : Nat → Bool

/-- The per-frame fields of struct iq_header_struct that the claims are
about (iq_header.h is not under src/; the field list follows the uses
in rtl_daq.c lines 463-488 and 546-583).  if_gains models the 32-slot
uint32 gain array; entries at or beyond ch_no keep their calloc value
0 (line 418 calloc, line 481 fill loop). -/
structure IQHeader where
  time_stamp : Nat
  daq_block_index : Nat
  rf_center_freq : Nat
  if_gains : List Nat
  adc_overdrive_flags : Nat
  noise_source_state : Nat
  frame_type : Nat
  data_type : Nat
  cpi_length : Nat
  active_ant_chs : Nat
deriving Repr, DecidableEq, Inhabited

/-- One frame of the stdout stream: the header followed by the
per-channel payload blocks, in channel order (empty for DUMMY
frames). -/
structure Frame where
  header : IQHeader
  payload : List (List Nat)
deriving Repr, DecidableEq, Inhabited

/-- The mutable shared state of the process: the receiver records and
the globals of rtl_daq.c (lines 63-81 and the main-loop locals of
lines 515-518). -/
structure DaqState where
  receivers : List RtlRec
  en_dummy_frame : Bool
  dummy_frame_cntr : Nat
  noise_source_state : Nat
  last_noise_source_state : Nat
  reconfig_trigger : Bool
  center_freq_change_flag : Bool
  new_center_freq : Nat
  gain_change_flag : Bool
  new_gains : List Int
  exit_flag : Bool
  read_buff_ind : Nat
  rd_buff_ind : Nat
  overdrive_flags : Nat
deriving Repr, DecidableEq, Inhabited

/-- Well-formedness tying a state to its configuration: one receiver
record per channel, each owning a NUM_BUFF * buffer_size octet ring
(rtl_daq.c lines 422, 454). -/
def WF (cfg : Config) (s : DaqState) : Prop :=
  s.receivers.length = cfg.ch_no ∧
  ∀ r ∈ s.receivers, r.buffer.length = NUM_BUFF * cfg.buffer_size

/-- List map that also passes the element index, used to model the C
loops for(i = 0; i < ch_no; i++) that update rtl_receivers[i]. -/
def mapIdxFrom (f : Nat → RtlRec → RtlRec) : Nat → List RtlRec → List RtlRec
  | _, [] => []
  | k, r :: rs => f k r :: mapIdxFrom f (k + 1) rs

/-- memcpy of src into m at byte offset off (rtl_daq.c line 291). -/
def writeBytes (m : List Nat) (off : Nat) (src : List Nat) : List Nat :=
  m.take off ++ src ++ m.drop (off + src.length)

/-- The state after startup (rtl_daq.c lines 446-518): receivers carry
the configured gain, frequency and rate with write counter 0; the
malloc-ed ring contents are indeterminate and are supplied by bufInit;
the main-loop locals start as read_buff_ind = 0, rd_buff_ind = 1,
overdrive_flags = 0; no driver set-gain call has happened yet. -/
def init_state (cfg : Config) (bufInit : Nat → List Nat) : DaqState :=
  { receivers := (List.range cfg.ch_no).map (fun i =>
      { gain := cfg.gain, center_freq := cfg.center_freq,
        sample_rate := cfg.sample_rate, buff_ind := 0,
        buffer := bufInit i, applied_gain := none }),
    en_dummy_frame := false, dummy_frame_cntr := 0,
    noise_source_state := 0, last_noise_source_state := 0,
    reconfig_trigger := false, center_freq_change_flag := false,
    new_center_freq := 0, gain_change_flag := false,
    new_gains := List.replicate cfg.ch_no 0,
    exit_flag := false, read_buff_ind := 0, rd_buff_ind := 1,
    overdrive_flags := 0 }

/-- rtlsdrCallback (rtl_daq.c lines 269-298) for channel i receiving
the block buf (of length buffer_size): copy buf into slot
buff_ind % NUM_BUFF of the ring of channel i and increment that
channel's write counter. -/
def callback_step (cfg : Config) (i : Nat) (buf : List Nat) (s : DaqState) : DaqState :=
  { s with receivers := mapIdxFrom (fun j rec_j =>
      if j = i then
        { rec_j with
          buffer := writeBytes rec_j.buffer
            (cfg.buffer_size * (rec_j.buff_ind % NUM_BUFF)) buf,
          buff_ind := rec_j.buff_ind + 1 }
      else rec_j) 0 s.receivers }

/-- The device-configuration block of read_thread_entry (rtl_daq.c
lines 347-377) for channel i: set_center_freq may fail (logged only),
then the actual frequency is read back unconditionally (line 357);
set_tuner_gain applies the record's gain field and on failure only
logs (lines 360-363), so the ghost applied_gain advances only on
success; set_sample_rate, set_gpio and reset_buffer change no modelled
state. -/
def reader_config_step (orc : DriverOracle) (i : Nat) (s : DaqState) : DaqState :=
  { s with receivers := mapIdxFrom (fun j rec_j =>
      if j = i then
        let rec1 := { rec_j with center_freq := orc.get_center_freq i }
        if orc.set_gain_ok i then { rec1 with applied_gain := some rec1.gain }
        else rec1
      else rec_j) 0 s.receivers }

/-- One iteration of the control-FIFO thread loop (rtl_daq.c lines
198-263) having read command byte b, with p the words further freads
would deliver.  Dispatch is on the bytes r = 114, c = 99, g = 103,
n = 110, f = 102 and 2; every received byte, known or not, then
enables the dummy-frame window and zeroes its counter (lines
257-259). -/
def fifo_read_step (cfg : Config) (b : Nat) (p : FifoPayload) (s : DaqState) : DaqState :=
  let s1 :=
    if b = 114 then
      { s with
        receivers := s.receivers.map (fun rec_j =>
          { rec_j with gain := p.gain_read,
                       center_freq := p.center_freq_read,
                       sample_rate := p.sample_rate_read }),
        reconfig_trigger := true }
    else if b = 99 then
      { s with new_center_freq := p.center_freq_read,
               center_freq_change_flag := true }
    else if b = 103 then
      { s with new_gains := p.gains_read, gain_change_flag := true }
    else if b = 110 then
      { s with noise_source_state := 1 }
    else if b = 102 then
      { s with noise_source_state := 0 }
    else if b = 2 then
      { s with exit_flag := true }
    else s
  { s1 with en_dummy_frame := true, dummy_frame_cntr := 0 }

/-- Failure of fopen on the control FIFO (rtl_daq.c lines 186-195):
the thread latches exit_flag and signals the coordinator. -/
def fifo_open_fail_step (s : DaqState) : DaqState :=
  { s with exit_flag := true }

/-- The data_ready computation of the main loop (rtl_daq.c lines
532-538): every channel's write counter must strictly exceed
read_buff_ind. -/
def daq_data_ready (cfg : Config) (s : DaqState) : Bool :=
  (List.range cfg.ch_no).all (fun i =>
    decide (s.read_buff_ind < (s.receivers.getD i default).buff_ind))

/-- One iteration of the header-completion loop body (rtl_daq.c lines
548-561) for channel i, transforming the accumulator
(rf_center_freq, if_gains, overdrive_flags): rf_center_freq is
overwritten with this channel's frequency, if_gains[i] is set to the
uint32 cast of this channel's gain, and bit i of the uint8 overdrive
byte is ORed in when any byte of the slot at offset
buffer_size * rd_buff_ind of this channel's ring equals 255. -/
def header_scan_step (cfg : Config) (s : DaqState)
    (acc : Nat × List Nat × Nat) (i : Nat) : Nat × List Nat × Nat :=
  let rec_i := s.receivers.getD i default
  let slot := (rec_i.buffer.drop (cfg.buffer_size * s.rd_buff_ind)).take cfg.buffer_size
  (rec_i.center_freq,
   acc.2.1.set i (uint32ofInt rec_i.gain),
   if slot.any (fun b => b == 255) then (acc.2.2 ||| (1 <<< i)) % 256 else acc.2.2)

/-- The frame the coordinator writes to stdout in a data-ready cycle
(rtl_daq.c lines 546-601), built from the pre-emission state: the
header-completion fold over all channels (seeded with the startup
values of the reused header: the configured center frequency, the
calloc-zero 32-slot gain array whose first ch_no entries the startup
loop and every emission overwrite, and the current overdrive byte),
the uint32 block index, the frame-type selection of lines 565-583,
and, for non-dummy frames, the per-channel slot at offset
read_buff_ind % NUM_BUFF written in channel order (lines 593-601). -/
def mk_frame (cfg : Config) (t : Nat) (s : DaqState) : Frame :=
  let scan := (List.range cfg.ch_no).foldl (header_scan_step cfg s)
    (cfg.center_freq, List.replicate 32 0, s.overdrive_flags)
  { header :=
      { time_stamp := t,
        daq_block_index := s.read_buff_ind % 2 ^ 32,
        rf_center_freq := scan.1,
        if_gains := scan.2.1,
        adc_overdrive_flags := scan.2.2,
        noise_source_state := s.noise_source_state,
        frame_type :=
          if s.en_dummy_frame then FRAME_TYPE_DUMMY
          else if s.noise_source_state = 1 then FRAME_TYPE_CAL
          else FRAME_TYPE_DATA,
        data_type := if s.en_dummy_frame then 0 else 1,
        cpi_length := if s.en_dummy_frame then 0 else cfg.daq_buffer_size,
        active_ant_chs := cfg.ch_no },
    payload :=
      if s.en_dummy_frame then []
      else (List.range cfg.ch_no).map (fun i =>
        (((s.receivers.getD i default).buffer).drop
          (cfg.buffer_size * (s.read_buff_ind % NUM_BUFF))).take cfg.buffer_size) }

/-- The post-emission bookkeeping of the main loop (rtl_daq.c lines
599, 607-614): the overdrive byte is cleared, read_buff_ind advances,
rd_buff_ind is refreshed to read_buff_ind % NUM_BUFF only inside the
non-dummy payload loop (so not on dummy frames nor with zero
channels), and the dummy counter advances, closing the window when it
reaches NO_DUMMY_FRAMES. -/
def advance_state (cfg : Config) (s : DaqState) : DaqState :=
  { s with
    overdrive_flags := 0,
    read_buff_ind := s.read_buff_ind + 1,
    rd_buff_ind :=
      if s.en_dummy_frame ∨ cfg.ch_no = 0 then s.rd_buff_ind
      else s.read_buff_ind % NUM_BUFF,
    dummy_frame_cntr :=
      if s.en_dummy_frame then s.dummy_frame_cntr + 1 else s.dummy_frame_cntr,
    en_dummy_frame :=
      s.en_dummy_frame && !(s.dummy_frame_cntr + 1 == NO_DUMMY_FRAMES) }

/-- Tuner-control step for the deprecated retune request (rtl_daq.c
lines 624-634): cancel_async is called per channel, failures are only
logged, and the trigger is cleared. -/
def apply_reconfig (s : DaqState) : DaqState :=
  if s.reconfig_trigger then { s with reconfig_trigger := false } else s

/-- Hot center-frequency change (rtl_daq.c lines 636-652): per channel,
on set_center_freq success the record takes the read-back frequency;
on failure it is left untouched; the flag is cleared. -/
def apply_freq_change (orc : DriverOracle) (s : DaqState) : DaqState :=
  if s.center_freq_change_flag then
    { s with
      receivers := mapIdxFrom (fun i rec_i =>
        if orc.set_freq_ok i then { rec_i with center_freq := orc.get_center_freq i }
        else rec_i) 0 s.receivers,
      center_freq_change_flag := false }
  else s

/-- Hot gain change (rtl_daq.c lines 655-669): per channel, only on
set_tuner_gain success the record's gain takes new_gains[i] (and the
ghost applied_gain records the successful application); on failure the
record keeps its gain; the flag is cleared. -/
def apply_gain_change (orc : DriverOracle) (s : DaqState) : DaqState :=
  if s.gain_change_flag then
    { s with
      receivers := mapIdxFrom (fun i rec_i =>
        if orc.set_gain_ok i then
          { rec_i with gain := s.new_gains.getD i 0,
                       applied_gain := some (s.new_gains.getD i 0) }
        else rec_i) 0 s.receivers,
      gain_change_flag := false }
  else s

/-- Noise-source switch application (rtl_daq.c lines 671-696): the GPIO
toggles change no modelled state (their receiver-array accesses are
modelled by noise_gpio_indices); the last applied state is
recorded. -/
def apply_noise_source (s : DaqState) : DaqState :=
  { s with last_noise_source_state := s.noise_source_state }

/-- The receiver-array indices the noise-source block of rtl_daq.c
lines 671-695 reads: when the state changed and control is enabled it
accesses rtl_receivers[ctr_channel_dev_index] (line 677) and, when
ch_no > 4, additionally rtl_receivers[7] (line 689). -/
def noise_gpio_indices (cfg : Config) (s : DaqState) : List Nat :=
  if s.last_noise_source_state ≠ s.noise_source_state ∧ cfg.en_noise_source_ctr = 1 then
    if 4 < cfg.ch_no then [cfg.ctr_channel_dev_index, 7]
    else [cfg.ctr_channel_dev_index]
  else []

/-- The control application phase of one main-loop cycle, in program
order: retune trigger, frequency change, gain change, noise source. -/
def apply_controls (orc : DriverOracle) (s : DaqState) : DaqState :=
  apply_noise_source (apply_gain_change orc (apply_freq_change orc (apply_reconfig s)))

/-- One wakeup of the coordinator main loop (rtl_daq.c lines 525-697):
if not every channel has outrun read_buff_ind nothing happens;
otherwise the frame for the current block is emitted and the
bookkeeping and pending control requests are applied. -/
def main_step (cfg : Config) (orc : DriverOracle) (t : Nat) (s : DaqState) :
    DaqState × Option Frame :=
  if daq_data_ready cfg s then
    (apply_controls orc (advance_state cfg s), some (mk_frame cfg t s))
  else (s, none)

/-- The coordinator loop run over a finite schedule of wakeups with
their wall-clock stamps, collecting the emitted frames; the loop stops
at the while(!exit_flag) check (rtl_daq.c line 525). -/
def main_loop_run (cfg : Config) (orc : DriverOracle) :
    List Nat → DaqState → DaqState × List Frame
  | [], s => (s, [])
  | t :: ts, s =>
    if s.exit_flag then (s, [])
    else
      let r := main_step cfg orc t s
      let rest := main_loop_run cfg orc ts r.1
      match r.2 with
      | none => rest
      | some fr => (rest.1, fr :: rest.2)

/-- The shutdown path of main (rtl_daq.c lines 699-724): cancel_async
per channel, a failure returning -1 at once (lines 703-707), otherwise
0 after the joins. -/
def shutdown_exit_code (cfg : Config) (orc : DriverOracle) : Int :=
  if (List.range cfg.ch_no).all orc.cancel_ok then 0 else -1

/-
  Concrete inputs used by the claim witnesses and counterexamples.
-/

/-- A one-channel configuration with one IQ sample per block
(buffer_size = 2). -/
def cfgW : Config :=
  { ch_no := 1, daq_buffer_size := 1, en_noise_source_ctr := 0,
    ctr_channel_dev_index := 0, gain := 100, center_freq := 1000,
    sample_rate := 2000 }

/-- An oracle on which every driver call succeeds. -/
def orcW : DriverOracle :=
  { cancel_ok := fun _ => true, set_freq_ok := fun _ => true,
    get_center_freq := fun _ => 1000, set_gain_ok := fun _ => true }

/-- An oracle on which every driver call fails. -/
def orcBad : DriverOracle :=
  { cancel_ok := fun _ => false, set_freq_ok := fun _ => false,
    get_center_freq := fun _ => 0, set_gain_ok := fun _ => false }

/-- An oracle on which only set_tuner_gain fails. -/
def orcGF : DriverOracle :=
  { cancel_ok := fun _ => true, set_freq_ok := fun _ => true,
    get_center_freq := fun _ => 1000, set_gain_ok := fun _ => false }

/-- All-zero initial ring contents for cfgW (NUM_BUFF * 2 = 16
octets). -/
def bufZ : Nat → List Nat := fun _ => List.replicate 16 0

/-- An empty FIFO payload. -/
def pW : FifoPayload :=
  { center_freq_read := 0, sample_rate_read := 0, gain_read := 0, gains_read := [] }

/-- Startup state for cfgW after one delivered block of zeros on
channel 0 (so the first frame is data-ready). -/
def sW : DaqState := callback_step cfgW 0 [0, 0] (init_state cfgW bufZ)

/-- A cfgW receiver whose write counter is far ahead, letting many
frames be emitted in a row. -/
def rec3W : RtlRec :=
  { gain := 100, center_freq := 1000, sample_rate := 2000,
    buff_ind := 100, buffer := List.replicate 16 0, applied_gain := some 100 }

/-- Startup state for cfgW with the producer 100 blocks ahead. -/
def s3W : DaqState := { init_state cfgW bufZ with receivers := [rec3W] }

/-- Ten coordinator wakeups. -/
def tsW : List Nat := List.replicate 10 0

/-- Startup state for cfgW after a first block whose two octets are
both 255 (full scale) on channel 0. -/
def s2c : DaqState := callback_step cfgW 0 [255, 255] (init_state cfgW bufZ)

/-- cfgW state after a successful device configuration, one delivered
zero block, and the retune command r = 114 requesting gain 300 that a
failing set_tuner_gain then never applies. -/
def s7 : DaqState :=
  reader_config_step orcGF 0
    (fifo_read_step cfgW 114
      { center_freq_read := 0, sample_rate_read := 0, gain_read := 300, gains_read := [] }
      (callback_step cfgW 0 [0, 0] (reader_config_step orcW 0 (init_state cfgW bufZ))))

/-- A five-channel configuration with noise-source control enabled. -/
def cfg9 : Config :=
  { ch_no := 5, daq_buffer_size := 1, en_noise_source_ctr := 1,
    ctr_channel_dev_index := 0, gain := 0, center_freq := 0, sample_rate := 0 }

/-- Startup state for cfg9 with a pending noise-source transition. -/
def s9 : DaqState := { init_state cfg9 bufZ with noise_source_state := 1 }

/-
  Helper lemmas about the embedding.
-/

lemma list_getD_set_self : ∀ (l : List Nat) (i v : Nat), i < l.length →
    (l.set i v).getD i 0 = v := by
  intro l
  induction l with
  | nil => intro i v h; simp at h
  | cons a t ih =>
    intro i v h
    cases i with
    | zero => rfl
    | succ n => simpa using ih n v (by simpa using h)

lemma list_getD_set_ne : ∀ (l : List Nat) (i j v : Nat), i ≠ j →
    (l.set i v).getD j 0 = l.getD j 0 := by
  intro l
  induction l with
  | nil => intro i j v _; simp [List.set]
  | cons a t ih =>
    intro i j v h
    cases i with
    | zero =>
      cases j with
      | zero => exact absurd rfl h
      | succ m => rfl
    | succ n =>
      cases j with
      | zero => rfl
      | succ m => simpa using ih n m v (by omega)

lemma mapIdxFrom_length (f : Nat → RtlRec → RtlRec) :
    ∀ (k : Nat) (l : List RtlRec), (mapIdxFrom f k l).length = l.length := by
  intro k l
  induction l generalizing k with
  | nil => rfl
  | cons r rs ih => simpa [mapIdxFrom] using ih (k + 1)

lemma mapIdxFrom_getD (f : Nat → RtlRec → RtlRec) :
    ∀ (l : List RtlRec) (k j : Nat), j < l.length →
      (mapIdxFrom f k l).getD j default = f (k + j) (l.getD j default) := by
  intro l
  induction l with
  | nil => intro k j h; simp at h
  | cons r rs ih =>
    intro k j h
    cases j with
    | zero => simp [mapIdxFrom]
    | succ m =>
      have h2 := ih (k + 1) m (by simpa using h)
      simp only [mapIdxFrom, List.getD_cons_succ]
      rw [h2]
      congr 1
      omega

lemma scan_fold_rf (cfg : Config) (s : DaqState) (a0 : Nat) (g0 : List Nat) (o0 : Nat)
    (n : Nat) (h : 0 < n) :
    ((List.range n).foldl (header_scan_step cfg s) (a0, g0, o0)).1 =
      (s.receivers.getD (n - 1) default).center_freq := by
  obtain ⟨m, rfl⟩ : ∃ m, n = m + 1 := ⟨n - 1, by omega⟩
  rw [List.range_succ, List.foldl_append]
  rfl

lemma scan_fold_gains_len (cfg : Config) (s : DaqState) (a0 : Nat) (o0 : Nat) :
    ∀ (n : Nat) (g0 : List Nat),
      ((List.range n).foldl (header_scan_step cfg s) (a0, g0, o0)).2.1.length = g0.length := by
  intro n g0
  induction n with
  | zero => rfl
  | succ m ih =>
    rw [List.range_succ, List.foldl_append]
    simpa [header_scan_step, List.length_set] using ih

lemma scan_fold_gains (cfg : Config) (s : DaqState) (a0 : Nat) (o0 : Nat) :
    ∀ (n : Nat) (g0 : List Nat) (i : Nat), i < n → i < g0.length →
      ((List.range n).foldl (header_scan_step cfg s) (a0, g0, o0)).2.1.getD i 0 =
        uint32ofInt ((s.receivers.getD i default).gain) := by
  intro n
  induction n with
  | zero => intro g0 i hi; omega
  | succ m ih =>
    intro g0 i hi hlen
    rw [List.range_succ, List.foldl_append]
    by_cases him : i = m
    · subst him
      show (header_scan_step cfg s _ i).2.1.getD i 0 = _
      simp only [header_scan_step]
      rw [list_getD_set_self]
      rw [scan_fold_gains_len cfg s a0 o0 i g0]
      exact hlen
    · show (header_scan_step cfg s _ m).2.1.getD i 0 = _
      simp only [header_scan_step]
      rw [list_getD_set_ne _ _ _ _ (by omega)]
      exact ih g0 i (by omega) hlen

lemma apply_reconfig_proj (s : DaqState) :
    (apply_reconfig s).en_dummy_frame = s.en_dummy_frame ∧
    (apply_reconfig s).dummy_frame_cntr = s.dummy_frame_cntr ∧
    (apply_reconfig s).exit_flag = s.exit_flag ∧
    (apply_reconfig s).noise_source_state = s.noise_source_state := by
  unfold apply_reconfig; split <;> exact ⟨rfl, rfl, rfl, rfl⟩

lemma apply_freq_change_proj (orc : DriverOracle) (s : DaqState) :
    (apply_freq_change orc s).en_dummy_frame = s.en_dummy_frame ∧
    (apply_freq_change orc s).dummy_frame_cntr = s.dummy_frame_cntr ∧
    (apply_freq_change orc s).exit_flag = s.exit_flag ∧
    (apply_freq_change orc s).noise_source_state = s.noise_source_state := by
  unfold apply_freq_change; split <;> exact ⟨rfl, rfl, rfl, rfl⟩

lemma apply_gain_change_proj (orc : DriverOracle) (s : DaqState) :
    (apply_gain_change orc s).en_dummy_frame = s.en_dummy_frame ∧
    (apply_gain_change orc s).dummy_frame_cntr = s.dummy_frame_cntr ∧
    (apply_gain_change orc s).exit_flag = s.exit_flag ∧
    (apply_gain_change orc s).noise_source_state = s.noise_source_state := by
  unfold apply_gain_change; split <;> exact ⟨rfl, rfl, rfl, rfl⟩

lemma apply_noise_source_proj (s : DaqState) :
    (apply_noise_source s).en_dummy_frame = s.en_dummy_frame ∧
    (apply_noise_source s).dummy_frame_cntr = s.dummy_frame_cntr ∧
    (apply_noise_source s).exit_flag = s.exit_flag ∧
    (apply_noise_source s).noise_source_state = s.noise_source_state := by
  exact ⟨rfl, rfl, rfl, rfl⟩

lemma apply_controls_proj (orc : DriverOracle) (s : DaqState) :
    (apply_controls orc s).en_dummy_frame = s.en_dummy_frame ∧
    (apply_controls orc s).dummy_frame_cntr = s.dummy_frame_cntr ∧
    (apply_controls orc s).exit_flag = s.exit_flag ∧
    (apply_controls orc s).noise_source_state = s.noise_source_state := by
  unfold apply_controls
  obtain ⟨r1, r2, r3, r4⟩ := apply_reconfig_proj s
  obtain ⟨f1, f2, f3, f4⟩ := apply_freq_change_proj orc (apply_reconfig s)
  obtain ⟨g1, g2, g3, g4⟩ :=
    apply_gain_change_proj orc (apply_freq_change orc (apply_reconfig s))
  obtain ⟨n1, n2, n3, n4⟩ :=
    apply_noise_source_proj (apply_gain_change orc (apply_freq_change orc (apply_reconfig s)))
  exact ⟨by rw [n1, g1, f1, r1], by rw [n2, g2, f2, r2],
         by rw [n3, g3, f3, r3], by rw [n4, g4, f4, r4]⟩

lemma main_step_not_ready (cfg : Config) (orc : DriverOracle) (t : Nat) (s : DaqState)
    (h : daq_data_ready cfg s = false) : main_step cfg orc t s = (s, none) := by
  simp [main_step, h]

lemma main_step_ready (cfg : Config) (orc : DriverOracle) (t : Nat) (s : DaqState)
    (h : daq_data_ready cfg s = true) :
    main_step cfg orc t s =
      (apply_controls orc (advance_state cfg s), some (mk_frame cfg t s)) := by
  simp [main_step, h]

lemma main_step_exit (cfg : Config) (orc : DriverOracle) (t : Nat) (s : DaqState) :
    (main_step cfg orc t s).1.exit_flag = s.exit_flag := by
  by_cases h : daq_data_ready cfg s
  · rw [main_step_ready cfg orc t s h]
    exact (apply_controls_proj orc (advance_state cfg s)).2.2.1
  · rw [main_step_not_ready cfg orc t s (by simpa using h)]

lemma mk_frame_type_of_dummy (cfg : Config) (t : Nat) (s : DaqState)
    (h : s.en_dummy_frame = true) :
    (mk_frame cfg t s).header.frame_type = FRAME_TYPE_DUMMY := by
  simp [mk_frame, h]

lemma mk_frame_type_of_nodummy (cfg : Config) (t : Nat) (s : DaqState)
    (h : s.en_dummy_frame = false) :
    (mk_frame cfg t s).header.frame_type ≠ FRAME_TYPE_DUMMY := by
  have h2 : (mk_frame cfg t s).header.frame_type =
      if s.noise_source_state = 1 then FRAME_TYPE_CAL else FRAME_TYPE_DATA := by
    simp [mk_frame, h]
  rw [h2]
  split <;> decide

lemma main_step_en_cntr (cfg : Config) (orc : DriverOracle) (t : Nat) (s : DaqState)
    (h : daq_data_ready cfg s = true) :
    (main_step cfg orc t s).1.en_dummy_frame =
      (s.en_dummy_frame && !(s.dummy_frame_cntr + 1 == NO_DUMMY_FRAMES)) ∧
    (main_step cfg orc t s).1.dummy_frame_cntr =
      (if s.en_dummy_frame then s.dummy_frame_cntr + 1 else s.dummy_frame_cntr) := by
  rw [main_step_ready cfg orc t s h]
  obtain ⟨e1, e2, _, _⟩ := apply_controls_proj orc (advance_state cfg s)
  exact ⟨by rw [e1]; rfl, by rw [e2]; rfl⟩

lemma run_nil (cfg : Config) (orc : DriverOracle) (s : DaqState) :
    main_loop_run cfg orc [] s = (s, []) := rfl

lemma run_cons_exit (cfg : Config) (orc : DriverOracle) (t : Nat) (ts : List Nat)
    (s : DaqState) (h : s.exit_flag = true) :
    main_loop_run cfg orc (t :: ts) s = (s, []) := by
  simp [main_loop_run, h]

lemma run_cons_not_ready (cfg : Config) (orc : DriverOracle) (t : Nat) (ts : List Nat)
    (s : DaqState) (he : s.exit_flag = false) (h : daq_data_ready cfg s = false) :
    main_loop_run cfg orc (t :: ts) s = main_loop_run cfg orc ts s := by
  simp [main_loop_run, he, main_step_not_ready cfg orc t s h]

lemma run_cons_ready (cfg : Config) (orc : DriverOracle) (t : Nat) (ts : List Nat)
    (s : DaqState) (he : s.exit_flag = false) (h : daq_data_ready cfg s = true) :
    main_loop_run cfg orc (t :: ts) s =
      ((main_loop_run cfg orc ts (apply_controls orc (advance_state cfg s))).1,
       mk_frame cfg t s ::
         (main_loop_run cfg orc ts (apply_controls orc (advance_state cfg s))).2) := by
  simp [main_loop_run, he, main_step_ready cfg orc t s h]

lemma run_no_dummy (cfg : Config) (orc : DriverOracle) :
    ∀ (ts : List Nat) (s : DaqState), s.en_dummy_frame = false →
      ∀ fr ∈ (main_loop_run cfg orc ts s).2, fr.header.frame_type ≠ FRAME_TYPE_DUMMY := by
  intro ts
  induction ts with
  | nil => intro s _ fr hfr; simp [run_nil] at hfr
  | cons t ts ih =>
    intro s hen fr hfr
    cases he : s.exit_flag with
    | true => rw [run_cons_exit cfg orc t ts s he] at hfr; simp at hfr
    | false =>
      cases hr : daq_data_ready cfg s with
      | false =>
        rw [run_cons_not_ready cfg orc t ts s he hr] at hfr
        exact ih s hen fr hfr
      | true =>
        rw [run_cons_ready cfg orc t ts s he hr] at hfr
        simp only [List.mem_cons] at hfr
        rcases hfr with rfl | hfr
        · exact mk_frame_type_of_nodummy cfg t s hen
        · refine ih _ ?_ fr hfr
          rw [(apply_controls_proj orc (advance_state cfg s)).1]
          show (s.en_dummy_frame && _) = false
          rw [hen]
          rfl

lemma run_dummy_window (cfg : Config) (orc : DriverOracle) :
    ∀ (ts : List Nat) (s : DaqState),
      s.en_dummy_frame = true → s.dummy_frame_cntr < NO_DUMMY_FRAMES →
      (∀ fr ∈ ((main_loop_run cfg orc ts s).2.take
          (NO_DUMMY_FRAMES - s.dummy_frame_cntr)),
        fr.header.frame_type = FRAME_TYPE_DUMMY) ∧
      (∀ fr ∈ ((main_loop_run cfg orc ts s).2.drop
          (NO_DUMMY_FRAMES - s.dummy_frame_cntr)),
        fr.header.frame_type ≠ FRAME_TYPE_DUMMY) := by
  intro ts
  induction ts with
  | nil =>
    intro s _ _
    constructor <;> (intro fr hfr; simp [run_nil] at hfr)
  | cons t ts ih =>
    intro s hen hcnt
    cases he : s.exit_flag with
    | true =>
      rw [run_cons_exit cfg orc t ts s he]
      constructor <;> (intro fr hfr; simp at hfr)
    | false =>
      cases hr : daq_data_ready cfg s with
      | false =>
        rw [run_cons_not_ready cfg orc t ts s he hr]
        exact ih s hen hcnt
      | true =>
        rw [run_cons_ready cfg orc t ts s he hr]
        have hs2en : (apply_controls orc (advance_state cfg s)).en_dummy_frame =
            (s.en_dummy_frame && !(s.dummy_frame_cntr + 1 == NO_DUMMY_FRAMES)) := by
          rw [(apply_controls_proj orc (advance_state cfg s)).1]
          rfl
        have hs2c : (apply_controls orc (advance_state cfg s)).dummy_frame_cntr =
            s.dummy_frame_cntr + 1 := by
          rw [(apply_controls_proj orc (advance_state cfg s)).2.1]
          show (if s.en_dummy_frame then _ else _) = _
          rw [hen]
          rfl
        by_cases h8 : s.dummy_frame_cntr + 1 = NO_DUMMY_FRAMES
        · have hk : NO_DUMMY_FRAMES - s.dummy_frame_cntr = 1 := by omega
          rw [hk]
          have hs2en2 : (apply_controls orc (advance_state cfg s)).en_dummy_frame = false := by
            rw [hs2en, hen, h8]
            simp
          constructor
          · intro fr hfr
            simp only [List.take_succ_cons, List.take_zero, List.mem_singleton] at hfr
            subst hfr
            exact mk_frame_type_of_dummy cfg t s hen
          · intro fr hfr
            simp only [List.drop_succ_cons, List.drop_zero] at hfr
            exact run_no_dummy cfg orc ts _ hs2en2 fr hfr
        · have hk : NO_DUMMY_FRAMES - s.dummy_frame_cntr =
              (NO_DUMMY_FRAMES - (apply_controls orc (advance_state cfg s)).dummy_frame_cntr) + 1 := by
            rw [hs2c]; omega
          have hs2en2 : (apply_controls orc (advance_state cfg s)).en_dummy_frame = true := by
            rw [hs2en, hen]
            simp [h8]
          have hcnt2 : (apply_controls orc (advance_state cfg s)).dummy_frame_cntr <
              NO_DUMMY_FRAMES := by
            rw [hs2c]; omega
          obtain ⟨ih1, ih2⟩ := ih _ hs2en2 hcnt2
          rw [hk]
          constructor
          · intro fr hfr
            simp only [List.take_succ_cons, List.mem_cons] at hfr
            rcases hfr with rfl | hfr
            · exact mk_frame_type_of_dummy cfg t s hen
            · exact ih1 fr hfr
          · intro fr hfr
            simp only [List.drop_succ_cons] at hfr
            exact ih2 fr hfr

lemma fifo_read_step_en (cfg : Config) (b : Nat) (p : FifoPayload) (s : DaqState) :
    (fifo_read_step cfg b p s).en_dummy_frame = true ∧
    (fifo_read_step cfg b p s).dummy_frame_cntr = 0 := ⟨rfl, rfl⟩

lemma fifo_fold_en (cfg : Config) :
    ∀ (cmds : List (Nat × FifoPayload)) (s : DaqState), cmds ≠ [] →
      ((cmds.foldl (fun st c => fifo_read_step cfg c.1 c.2 st) s).en_dummy_frame = true ∧
       (cmds.foldl (fun st c => fifo_read_step cfg c.1 c.2 st) s).dummy_frame_cntr = 0) := by
  intro cmds
  induction cmds with
  | nil => intro s h; exact absurd rfl h
  | cons c rest ih =>
    intro s _
    cases rest with
    | nil => exact fifo_read_step_en cfg c.1 c.2 s
    | cons c2 r2 =>
      exact ih (fifo_read_step cfg c.1 c.2 s) (by simp)

lemma list_getD_default (l : List RtlRec) (j : Nat) (h : l.length ≤ j) :
    l.getD j default = default := by
  simp [List.getD_eq_getElem?_getD, List.getElem?_eq_none h]

lemma wf_buffer_len (cfg : Config) (s : DaqState) (hwf : WF cfg s) (i : Nat)
    (hi : i < cfg.ch_no) :
    (s.receivers.getD i default).buffer.length = NUM_BUFF * cfg.buffer_size := by
  obtain ⟨hlen, hall⟩ := hwf
  have hi2 : i < s.receivers.length := by omega
  rw [List.getD_eq_getElem s.receivers default hi2]
  exact hall _ (List.getElem_mem hi2)

lemma slice_length (cfg : Config) (s : DaqState) (hwf : WF cfg s) (i : Nat)
    (hi : i < cfg.ch_no) :
    ((((s.receivers.getD i default).buffer).drop
        (cfg.buffer_size * (s.read_buff_ind % NUM_BUFF))).take cfg.buffer_size).length =
      cfg.buffer_size := by
  rw [List.length_take, List.length_drop, wf_buffer_len cfg s hwf i hi]
  have h8 : s.read_buff_ind % NUM_BUFF < NUM_BUFF := Nat.mod_lt _ (by decide)
  have hle : cfg.buffer_size * (s.read_buff_ind % NUM_BUFF) + cfg.buffer_size ≤
      NUM_BUFF * cfg.buffer_size := by
    have h2 : cfg.buffer_size * ((s.read_buff_ind % NUM_BUFF) + 1) ≤
        cfg.buffer_size * NUM_BUFF :=
      Nat.mul_le_mul_left _ (Nat.succ_le_of_lt h8)
    calc cfg.buffer_size * (s.read_buff_ind % NUM_BUFF) + cfg.buffer_size
        = cfg.buffer_size * ((s.read_buff_ind % NUM_BUFF) + 1) := by ring
      _ ≤ cfg.buffer_size * NUM_BUFF := h2
      _ = NUM_BUFF * cfg.buffer_size := Nat.mul_comm _ _
  omega

lemma sum_map_lengths (n c : Nat) (f : Nat → List Nat)
    (h : ∀ i, i < n → (f i).length = c) :
    (((List.range n).map f).map List.length).sum = n * c := by
  induction n with
  | zero => simp
  | succ m ih =>
    rw [List.range_succ]
    simp only [List.map_append, List.sum_append]
    rw [ih (fun i hi => h i (by omega))]
    simp [h m (by omega), Nat.succ_mul]

lemma all_map_lengths (n c : Nat) (f : Nat → List Nat)
    (h : ∀ i, i < n → (f i).length = c) :
    ((List.range n).map f).all (fun blk => blk.length == c) = true := by
  rw [List.all_eq_true]
  intro blk hblk
  rw [List.mem_map] at hblk
  obtain ⟨i, hi, rfl⟩ := hblk
  rw [List.mem_range] at hi
  simp [h i hi]

/-
  The claims.
-/

/-- C9: whenever the noise-source transition block runs with control
enabled and more than four channels, it accesses rtl_receivers[7];
that access lies inside the channel_count allocated records exactly
when channel_count is at least 8, and is out of bounds for
channel_count 5, 6 and 7. -/
theorem claim_C9_noise_gpio_oob (cfg : Config) (s : DaqState)
    (ht : s.last_noise_source_state ≠ s.noise_source_state)
    (hen : cfg.en_noise_source_ctr = 1) (h4 : 4 < cfg.ch_no)
    (hlen : s.receivers.length = cfg.ch_no) :
    7 ∈ noise_gpio_indices cfg s ∧
    ((7 < s.receivers.length) ↔ 8 ≤ cfg.ch_no) ∧
    ((cfg.ch_no = 5 ∨ cfg.ch_no = 6 ∨ cfg.ch_no = 7) → ¬(7 < s.receivers.length)) := by
  refine ⟨?_, ?_, ?_⟩
  · unfold noise_gpio_indices
    rw [if_pos ⟨ht, hen⟩, if_pos h4]
    simp
  · rw [hlen]
    omega
  · intro hc
    rw [hlen]
    omega

/-- Witness for C9 at a concrete five-channel configuration with a
pending noise-source transition. -/
theorem claim_C9_noise_gpio_oob_witness :
    7 ∈ noise_gpio_indices cfg9 s9 ∧
    ((7 < s9.receivers.length) ↔ 8 ≤ cfg9.ch_no) ∧
    ((cfg9.ch_no = 5 ∨ cfg9.ch_no = 6 ∨ cfg9.ch_no = 7) → ¬(7 < s9.receivers.length)) :=
  claim_C9_noise_gpio_oob cfg9 s9 (by decide) (by decide) (by decide) (by decide)

/-- C10: in every emitted frame the single header field rf_center_freq
holds the center frequency of the last channel (index ch_no - 1),
because the per-channel header loop overwrites it on every
iteration. -/
theorem claim_C10_rf_center_freq_last (cfg : Config) (orc : DriverOracle) (t : Nat)
    (s : DaqState) (h1 : 1 ≤ cfg.ch_no) (hr : daq_data_ready cfg s = true) :
    ((main_step cfg orc t s).2.map (fun fr => fr.header.rf_center_freq)) =
      some ((s.receivers.getD (cfg.ch_no - 1) default).center_freq) := by
  rw [main_step_ready cfg orc t s hr]
  show some (mk_frame cfg t s).header.rf_center_freq = _
  have h2 : (mk_frame cfg t s).header.rf_center_freq =
      ((List.range cfg.ch_no).foldl (header_scan_step cfg s)
        (cfg.center_freq, List.replicate 32 0, s.overdrive_flags)).1 := rfl
  rw [h2, scan_fold_rf cfg s _ _ _ _ h1]

/-- Witness for C10 at the concrete one-channel ready state. -/
theorem claim_C10_rf_center_freq_last_witness :
    ((main_step cfgW orcW 0 sW).2.map (fun fr => fr.header.rf_center_freq)) =
      some ((sW.receivers.getD (cfgW.ch_no - 1) default).center_freq) :=
  claim_C10_rf_center_freq_last cfgW orcW 0 sW (by decide) (by decide)

/-- C8 counterexample: a cancel_async failure during shutdown makes
the process return -1, so it is not true that no failure of the
listed device calls ever causes a non-zero exit code. -/
theorem claim_C8_counterexample :
    shutdown_exit_code cfgW orcBad = -1 ∧ ((-1 : Int) ≠ 0) := by decide

/-- C8 as amended: failures of the listed device calls inside the
acquisition loop never halt it (one coordinator cycle preserves
exit_flag whatever the driver oracle answers), but the shutdown path
returns 0 exactly when cancel_async succeeds on every channel and -1
otherwise. -/
theorem claim_C8_amended_nonfatal (cfg : Config) (orc : DriverOracle) (t : Nat)
    (s : DaqState) :
    ((main_step cfg orc t s).1.exit_flag = s.exit_flag) ∧
    (shutdown_exit_code cfg orc = 0 ↔ (List.range cfg.ch_no).all orc.cancel_ok = true) := by
  refine ⟨main_step_exit cfg orc t s, ?_⟩
  unfold shutdown_exit_code
  cases h : (List.range cfg.ch_no).all orc.cancel_ok with
  | true => simp
  | false => simp

/-- C5 counterexample: with the control FIFO open failing and every
shutdown cancel_async succeeding, the coordinator emits nothing and
the process exit code is 0, not -1 as the claim states. -/
theorem claim_C5_counterexample :
    (fifo_open_fail_step sW).exit_flag = true ∧
    (main_loop_run cfgW orcW [0, 0] (fifo_open_fail_step sW)).2 = [] ∧
    shutdown_exit_code cfgW orcW = 0 ∧ ((0 : Int) ≠ -1) := by decide

/-- C5 as amended: a failed open of the control FIFO latches exit_flag
and the coordinator stops emitting, and the process then leaves
through the regular shutdown path, returning 0 whenever cancel_async
succeeds on every channel (not -1). -/
theorem claim_C5_amended_fifo_fail (cfg : Config) (orc : DriverOracle) (ts : List Nat)
    (s : DaqState) (hc : (List.range cfg.ch_no).all orc.cancel_ok = true) :
    (fifo_open_fail_step s).exit_flag = true ∧
    (main_loop_run cfg orc ts (fifo_open_fail_step s)).2 = [] ∧
    shutdown_exit_code cfg orc = 0 := by
  refine ⟨rfl, ?_, ?_⟩
  · cases ts with
    | nil => rfl
    | cons t ts2 => rw [run_cons_exit cfg orc t ts2 _ rfl]
  · unfold shutdown_exit_code
    rw [hc]
    rfl

/-- Witness for the amended C5 at the concrete one-channel state. -/
theorem claim_C5_amended_fifo_fail_witness :
    (fifo_open_fail_step sW).exit_flag = true ∧
    (main_loop_run cfgW orcW [0, 0] (fifo_open_fail_step sW)).2 = [] ∧
    shutdown_exit_code cfgW orcW = 0 :=
  claim_C5_amended_fifo_fail cfgW orcW [0, 0] sW (by decide)

/-- C6 counterexample: the unknown command byte 120 (ASCII x) does
change the emitted stream: the next frame after it is DUMMY, while
without it the next frame is DATA. -/
theorem claim_C6_counterexample :
    ((main_loop_run cfgW orcW [0] (fifo_read_step cfgW 120 pW sW)).2.map
        (fun fr => fr.header.frame_type)) = [FRAME_TYPE_DUMMY] ∧
    ((main_loop_run cfgW orcW [0] sW).2.map (fun fr => fr.header.frame_type)) =
      [FRAME_TYPE_DATA] := by decide

/-- C6 as amended: a command byte outside r, c, g, n, f, 2 mutates no
receiver parameter and latches no request flag, but, like every
received byte, it enables the dummy window and zeroes its counter, so
it does start or restart a window of NO_DUMMY_FRAMES dummy frames: the
whole effect is exactly that of lines 257-259 of rtl_daq.c. -/
theorem claim_C6_amended_unknown_byte (cfg : Config) (b : Nat) (p : FifoPayload)
    (s : DaqState)
    (hb : ¬(b = 114 ∨ b = 99 ∨ b = 103 ∨ b = 110 ∨ b = 102 ∨ b = 2)) :
    fifo_read_step cfg b p s = { s with en_dummy_frame := true, dummy_frame_cntr := 0 } := by
  push_neg at hb
  obtain ⟨h1, h2, h3, h4, h5, h6⟩ := hb
  simp [fifo_read_step, h1, h2, h3, h4, h5, h6]

/-- Witness for the amended C6 at the concrete byte 120. -/
theorem claim_C6_amended_unknown_byte_witness :
    fifo_read_step cfgW 120 pW sW =
      { sW with en_dummy_frame := true, dummy_frame_cntr := 0 } :=
  claim_C6_amended_unknown_byte cfgW 120 pW sW (by decide)

/-- C2 at the failing input: with one channel and a first acquired
block of two full-scale octets, the first emitted frame carries
payload [[255, 255]] yet adc_overdrive_flags = 0, because the clipping
scan reads the slot indexed by the stale rd_buff_ind (still 1, the
startup value) instead of the slot read_buff_ind % NUM_BUFF = 0 that
is emitted. -/
theorem claim_C2_overdrive_stale_slot :
    ((main_step cfgW orcW 0 s2c).2.map
        (fun fr => (fr.header.adc_overdrive_flags, fr.payload))) =
      some (0, [[255, 255]]) := by decide

/-- C1: the coordinator emits nothing unless every channel's write
counter strictly exceeds read_buff_ind, and when it emits a non-dummy
frame for block index read_buff_ind, that inequality holds for every
channel and the payload is, per channel in order, exactly the
buffer_size-octet slot at offset read_buff_ind % NUM_BUFF of that
channel's ring; the header block index is the uint32 cast of
read_buff_ind and the frame type is CAL or DATA. -/
theorem claim_C1_block_alignment (cfg : Config) (orc : DriverOracle) (t : Nat)
    (s : DaqState) (hnd : s.en_dummy_frame = false) :
    (main_step cfg orc t s).2 = none ∨
    ((∀ i, i < cfg.ch_no → s.read_buff_ind < (s.receivers.getD i default).buff_ind) ∧
     (main_step cfg orc t s).2.map Frame.payload =
       some ((List.range cfg.ch_no).map (fun i =>
         (((s.receivers.getD i default).buffer).drop
           (cfg.buffer_size * (s.read_buff_ind % NUM_BUFF))).take cfg.buffer_size)) ∧
     (main_step cfg orc t s).2.map (fun fr => fr.header.daq_block_index) =
       some (s.read_buff_ind % 2 ^ 32) ∧
     (main_step cfg orc t s).2.map (fun fr => fr.header.frame_type) =
       some (if s.noise_source_state = 1 then FRAME_TYPE_CAL else FRAME_TYPE_DATA)) := by
  cases hr : daq_data_ready cfg s with
  | false => exact Or.inl (by rw [main_step_not_ready cfg orc t s hr])
  | true =>
    refine Or.inr ⟨?_, ?_, ?_, ?_⟩
    · intro i hi
      unfold daq_data_ready at hr
      have h2 := List.all_eq_true.mp hr i (List.mem_range.mpr hi)
      exact of_decide_eq_true h2
    · rw [main_step_ready cfg orc t s hr]
      show some (mk_frame cfg t s).payload = _
      simp [mk_frame, hnd]
    · rw [main_step_ready cfg orc t s hr]
      rfl
    · rw [main_step_ready cfg orc t s hr]
      show some (mk_frame cfg t s).header.frame_type = _
      simp [mk_frame, hnd]

/-- Witness for C1 at the concrete one-channel ready state. -/
theorem claim_C1_block_alignment_witness :
    (main_step cfgW orcW 0 sW).2 = none ∨
    ((∀ i, i < cfgW.ch_no → sW.read_buff_ind < (sW.receivers.getD i default).buff_ind) ∧
     (main_step cfgW orcW 0 sW).2.map Frame.payload =
       some ((List.range cfgW.ch_no).map (fun i =>
         (((sW.receivers.getD i default).buffer).drop
           (cfgW.buffer_size * (sW.read_buff_ind % NUM_BUFF))).take cfgW.buffer_size)) ∧
     (main_step cfgW orcW 0 sW).2.map (fun fr => fr.header.daq_block_index) =
       some (sW.read_buff_ind % 2 ^ 32) ∧
     (main_step cfgW orcW 0 sW).2.map (fun fr => fr.header.frame_type) =
       some (if sW.noise_source_state = 1 then FRAME_TYPE_CAL else FRAME_TYPE_DATA)) :=
  claim_C1_block_alignment cfgW orcW 0 sW (by decide)

/-- C3: after one or more control commands among r, c, g, n, f
(bytes 114, 99, 103, 110, 102) are processed, however they interleave
before the next frame, the next NO_DUMMY_FRAMES emitted frames are
DUMMY and every frame emitted after them in a command-free run is not
DUMMY: the commands collapse into a single window of exactly
NO_DUMMY_FRAMES dummies because each one zeroes the counter. -/
theorem claim_C3_dummy_window (cfg : Config) (orc : DriverOracle) (ts : List Nat)
    (s : DaqState) (cmds : List (Nat × FifoPayload)) (hne : cmds ≠ [])
    (hall : ∀ c ∈ cmds, c.1 = 114 ∨ c.1 = 99 ∨ c.1 = 103 ∨ c.1 = 110 ∨ c.1 = 102) :
    (∀ fr ∈ ((main_loop_run cfg orc ts
        (cmds.foldl (fun st c => fifo_read_step cfg c.1 c.2 st) s)).2.take NO_DUMMY_FRAMES),
      fr.header.frame_type = FRAME_TYPE_DUMMY) ∧
    (∀ fr ∈ ((main_loop_run cfg orc ts
        (cmds.foldl (fun st c => fifo_read_step cfg c.1 c.2 st) s)).2.drop NO_DUMMY_FRAMES),
      fr.header.frame_type ≠ FRAME_TYPE_DUMMY) := by
  obtain ⟨h1, h2⟩ := fifo_fold_en cfg cmds s hne
  have hw := run_dummy_window cfg orc ts _ h1 (by rw [h2]; decide)
  rw [h2] at hw
  simpa using hw

/-- Witness for C3: the n command on a one-channel state whose
producer is far ahead; over ten wakeups the first eight frames are
DUMMY, the following two are CAL. -/
theorem claim_C3_dummy_window_witness :
    (∀ fr ∈ ((main_loop_run cfgW orcW tsW
        (([((110 : Nat), pW)]).foldl (fun st c => fifo_read_step cfgW c.1 c.2 st) s3W)).2.take
          NO_DUMMY_FRAMES),
      fr.header.frame_type = FRAME_TYPE_DUMMY) ∧
    (∀ fr ∈ ((main_loop_run cfgW orcW tsW
        (([((110 : Nat), pW)]).foldl (fun st c => fifo_read_step cfgW c.1 c.2 st) s3W)).2.drop
          NO_DUMMY_FRAMES),
      fr.header.frame_type ≠ FRAME_TYPE_DUMMY) :=
  claim_C3_dummy_window cfgW orcW tsW s3W [((110 : Nat), pW)] (by decide) (by decide)

/-- C4: a DATA or CAL frame (dummy window off) carries exactly
active_ant_chs * 2 * cpi_length payload octets, as ch_no blocks of
buffer_size = 2 * daq_buffer_size octets each, and a DUMMY frame
(dummy window on) carries zero payload octets with cpi_length = 0 and
data_type = 0. -/
theorem claim_C4_frame_layout (cfg : Config) (orc : DriverOracle) (t : Nat)
    (s : DaqState) (hwf : WF cfg s) (hr : daq_data_ready cfg s = true) :
    (s.en_dummy_frame = false →
      ((main_step cfg orc t s).2.map (fun fr => (fr.payload.map List.length).sum) =
         (main_step cfg orc t s).2.map
           (fun fr => fr.header.active_ant_chs * (2 * fr.header.cpi_length)) ∧
       (main_step cfg orc t s).2.map (fun fr => fr.payload.length) = some cfg.ch_no ∧
       (main_step cfg orc t s).2.map
           (fun fr => fr.payload.all (fun blk => blk.length == cfg.buffer_size)) =
         some true)) ∧
    (s.en_dummy_frame = true →
      (main_step cfg orc t s).2.map
          (fun fr => (fr.payload, fr.header.cpi_length, fr.header.data_type,
                      fr.header.frame_type)) =
        some ([], 0, 0, FRAME_TYPE_DUMMY)) := by
  rw [main_step_ready cfg orc t s hr]
  constructor
  · intro hnd
    have hp : (mk_frame cfg t s).payload =
        (List.range cfg.ch_no).map (fun i =>
          (((s.receivers.getD i default).buffer).drop
            (cfg.buffer_size * (s.read_buff_ind % NUM_BUFF))).take cfg.buffer_size) := by
      simp [mk_frame, hnd]
    have hc : (mk_frame cfg t s).header.cpi_length = cfg.daq_buffer_size := by
      simp [mk_frame, hnd]
    have ha : (mk_frame cfg t s).header.active_ant_chs = cfg.ch_no := rfl
    refine ⟨?_, ?_, ?_⟩
    · show some ((mk_frame cfg t s).payload.map List.length).sum =
        some ((mk_frame cfg t s).header.active_ant_chs *
          (2 * (mk_frame cfg t s).header.cpi_length))
      rw [hp, ha, hc,
        sum_map_lengths cfg.ch_no cfg.buffer_size _ (fun i hi => slice_length cfg s hwf i hi)]
      show some (cfg.ch_no * cfg.buffer_size) = _
      rw [Config.buffer_size]
      ring_nf
    · show some (mk_frame cfg t s).payload.length = some cfg.ch_no
      rw [hp, List.length_map, List.length_range]
    · show some ((mk_frame cfg t s).payload.all (fun blk => blk.length == cfg.buffer_size)) =
        some true
      rw [hp,
        all_map_lengths cfg.ch_no cfg.buffer_size _ (fun i hi => slice_length cfg s hwf i hi)]
  · intro hd
    show some ((mk_frame cfg t s).payload, (mk_frame cfg t s).header.cpi_length,
      (mk_frame cfg t s).header.data_type, (mk_frame cfg t s).header.frame_type) = _
    simp [mk_frame, hd]

/-- Witness for C4 at the concrete one-channel ready state. -/
theorem claim_C4_frame_layout_witness :
    (sW.en_dummy_frame = false →
      ((main_step cfgW orcW 0 sW).2.map (fun fr => (fr.payload.map List.length).sum) =
         (main_step cfgW orcW 0 sW).2.map
           (fun fr => fr.header.active_ant_chs * (2 * fr.header.cpi_length)) ∧
       (main_step cfgW orcW 0 sW).2.map (fun fr => fr.payload.length) = some cfgW.ch_no ∧
       (main_step cfgW orcW 0 sW).2.map
           (fun fr => fr.payload.all (fun blk => blk.length == cfgW.buffer_size)) =
         some true)) ∧
    (sW.en_dummy_frame = true →
      (main_step cfgW orcW 0 sW).2.map
          (fun fr => (fr.payload, fr.header.cpi_length, fr.header.data_type,
                      fr.header.frame_type)) =
        some ([], 0, 0, FRAME_TYPE_DUMMY)) :=
  claim_C4_frame_layout cfgW orcW 0 sW ⟨by decide, by decide⟩ (by decide)

/-- C7 counterexample: after a successful initial configuration at
gain 100, the retune command r = 114 requesting gain 300 stores 300
straight into the receiver record; the restarted configuration's
set_tuner_gain call for 300 fails, so the most recently successfully
applied gain is still 100, yet the next emitted frame reports
if_gains[0] = 300. -/
theorem claim_C7_counterexample :
    ((main_step cfgW orcGF 0 s7).2.map (fun fr => fr.header.if_gains.getD 0 0)) =
      some 300 ∧
    (s7.receivers.getD 0 default).applied_gain = some 100 ∧ ((300 : Nat) ≠ 100) := by
  decide

/-- C7 as amended: in every emitted frame if_gains[i] is the uint32
cast of the current gain field of receiver i, and only the hot
gain-change path g guards that field with driver success: a failing
set_tuner_gain there leaves the reported gain unchanged (the r path
and the initial configuration store the requested gain into the field
regardless of driver outcome, so a rejected gain can still be
reported). -/
theorem claim_C7_amended_if_gains (cfg : Config) (orc : DriverOracle) (t : Nat)
    (s : DaqState) (i : Nat) (hi : i < cfg.ch_no) (hi32 : i < 32)
    (hr : daq_data_ready cfg s = true) :
    ((main_step cfg orc t s).2.map (fun fr => fr.header.if_gains.getD i 0) =
       some (uint32ofInt ((s.receivers.getD i default).gain))) ∧
    (∀ (orc2 : DriverOracle) (j : Nat) (s0 : DaqState), orc2.set_gain_ok j = false →
       ((apply_gain_change orc2 s0).receivers.getD j default).gain =
         (s0.receivers.getD j default).gain) := by
  constructor
  · rw [main_step_ready cfg orc t s hr]
    show some ((mk_frame cfg t s).header.if_gains.getD i 0) = _
    have hg : (mk_frame cfg t s).header.if_gains =
        ((List.range cfg.ch_no).foldl (header_scan_step cfg s)
          (cfg.center_freq, List.replicate 32 0, s.overdrive_flags)).2.1 := rfl
    rw [hg, scan_fold_gains cfg s cfg.center_freq s.overdrive_flags cfg.ch_no
      (List.replicate 32 0) i hi (by simpa using hi32)]
  · intro orc2 j s0 hfail
    unfold apply_gain_change
    by_cases hf : s0.gain_change_flag
    · rw [if_pos hf]
      show ((mapIdxFrom _ 0 s0.receivers).getD j default).gain = _
      by_cases hj : j < s0.receivers.length
      · rw [mapIdxFrom_getD _ s0.receivers 0 j hj]
        simp [hfail]
      · rw [list_getD_default _ j (by rw [mapIdxFrom_length]; omega),
          list_getD_default s0.receivers j (by omega)]
    · rw [if_neg hf]

/-- Witness for the amended C7 at the concrete one-channel ready
state. -/
theorem claim_C7_amended_if_gains_witness :
    ((main_step cfgW orcW 0 sW).2.map (fun fr => fr.header.if_gains.getD 0 0) =
       some (uint32ofInt ((sW.receivers.getD 0 default).gain))) ∧
    (∀ (orc2 : DriverOracle) (j : Nat) (s0 : DaqState), orc2.set_gain_ok j = false →
       ((apply_gain_change orc2 s0).receivers.getD j default).gain =
         (s0.receivers.getD j default).gain) :=
  claim_C7_amended_if_gains cfgW orcW 0 sW 0 (by decide) (by decide) (by decide)
